import Mathlib

/-!
Verification development for the `model-service` FastAPI application
(`app.py`, `model_loader.py`, `explanation_client.py`).

Embedding conventions:
- Python `float` scores are modelled as exact rationals (`ℚ`); the decimal
  literals `0.6`, `0.4`, `0.60`, `0.80` of the source become `6/10`, `4/10`,
  `8/10`.
- `statistics.mean` is the arithmetic mean `sum / length` (`listMean`).
- The pretrained transformer detectors are external library calls; they are
  modelled as oracles (`rawProb : String → ℚ`) standing for the softmax
  probability the model returns for the AI-class index.  The service-owned
  logic around them (clamping, tiering, aggregation, response assembly,
  subscripting the predict result) is embedded faithfully from the source.
- Python's dynamic typing at `text_detector.predict(text)["ai_prob"]`
  (app.py lines 233/285/366) is modelled with `PyVal` / `pySubscript`:
  `TextDetector.predict` returns a float (model_loader.py line 73-75), and
  subscripting a float raises `TypeError`.
- `latency_ms` (wall-clock time) is I/O and is not modelled.
- Endpoint handlers return the HTTP outcome together with the list of texts /
  images on which a detector `predict` call was actually issued, so that
  "no prediction is made" claims are statable.
-/

/-- `clamp_score` from app.py lines 112-113: `max(0.0, min(1.0, float(score)))`. -/
def clamp_score (score : ℚ) : ℚ :=
  max 0 (min 1 score)

/-- `tier_from_score` from app.py lines 116-121. -/
def tier_from_score (score : ℚ) : String :=
  if score ≥ 8/10 then "high"
  else if score ≥ 6/10 then "medium"
  else "low"

/-- `statistics.mean`: arithmetic mean of a list (sum divided by length);
only ever applied to non-empty lists in the source. -/
def listMean (xs : List ℚ) : ℚ :=
  xs.sum / (xs.length : ℚ)

/-- `summarize_overall` from app.py lines 124-132.  Python list truthiness
(`if text_scores and image_scores`) is non-emptiness. -/
def summarize_overall (textScores imageScores : List ℚ) : ℚ :=
  if !textScores.isEmpty && !imageScores.isEmpty then
    clamp_score (6/10 * listMean textScores + 4/10 * listMean imageScores)
  else if !textScores.isEmpty then
    clamp_score (listMean textScores)
  else if !imageScores.isEmpty then
    clamp_score (listMean imageScores)
  else 0

lemma clamp_score_nonneg (x : ℚ) : 0 ≤ clamp_score x :=
  le_max_left 0 (min 1 x)

lemma clamp_score_le_one (x : ℚ) : clamp_score x ≤ 1 :=
  max_le (by norm_num) (min_le_left 1 x)

lemma clamp_score_of_mem (x : ℚ) (h0 : 0 ≤ x) (h1 : x ≤ 1) : clamp_score x = x := by
  unfold clamp_score
  rw [min_eq_right h1, max_eq_right h0]

lemma summarize_overall_nonneg (ts iss : List ℚ) : 0 ≤ summarize_overall ts iss := by
  unfold summarize_overall
  split
  · exact clamp_score_nonneg _
  · split
    · exact clamp_score_nonneg _
    · split
      · exact clamp_score_nonneg _
      · exact le_refl 0

lemma summarize_overall_le_one (ts iss : List ℚ) : summarize_overall ts iss ≤ 1 := by
  unfold summarize_overall
  split
  · exact clamp_score_le_one _
  · split
    · exact clamp_score_le_one _
    · split
      · exact clamp_score_le_one _
      · norm_num

/-- C6: for every score x, `clamp_score x` lies in [0,1]; it is 0 when x < 0,
1 when x > 1, x when 0 ≤ x ≤ 1, and it is idempotent. -/
theorem C6_clamp_score_props (x : ℚ) :
    (0 ≤ clamp_score x ∧ clamp_score x ≤ 1)
    ∧ (x < 0 → clamp_score x = 0)
    ∧ (1 < x → clamp_score x = 1)
    ∧ (0 ≤ x → x ≤ 1 → clamp_score x = x)
    ∧ clamp_score (clamp_score x) = clamp_score x := by
  refine ⟨⟨clamp_score_nonneg x, clamp_score_le_one x⟩, ?_, ?_, ?_, ?_⟩
  · intro h
    unfold clamp_score
    rw [min_eq_right (le_of_lt (lt_of_lt_of_le h (by norm_num))),
      max_eq_left (le_of_lt h)]
  · intro h
    unfold clamp_score
    rw [min_eq_left (le_of_lt h)]
    exact max_eq_right (by norm_num)
  · exact clamp_score_of_mem x
  · exact clamp_score_of_mem _ (clamp_score_nonneg x) (clamp_score_le_one x)

/-- C6 witness: the clamping equations evaluated at concrete scores 2 and 1/2. -/
theorem C6_witness : clamp_score 2 = 1 ∧ clamp_score (1/2) = 1/2 :=
  ⟨(C6_clamp_score_props 2).2.2.1 (by norm_num),
    (C6_clamp_score_props (1/2)).2.2.2.1 (by norm_num) (by norm_num)⟩

/-- C2: `tier_from_score` returns "high" iff score ≥ 0.80, "medium" iff
0.60 ≤ score < 0.80, "low" iff score < 0.60, and always one of exactly
these three strings. -/
theorem C2_tier_from_score_thresholds (s : ℚ) :
    (tier_from_score s = "high" ↔ 8/10 ≤ s)
    ∧ (tier_from_score s = "medium" ↔ 6/10 ≤ s ∧ s < 8/10)
    ∧ (tier_from_score s = "low" ↔ s < 6/10)
    ∧ (tier_from_score s = "high" ∨ tier_from_score s = "medium"
        ∨ tier_from_score s = "low") := by
  unfold tier_from_score
  rcases le_or_lt (8/10 : ℚ) s with h8 | h8
  · have h6 : (6/10 : ℚ) ≤ s := le_trans (by norm_num) h8
    rw [if_pos h8]
    exact ⟨⟨fun _ => h8, fun _ => rfl⟩,
      ⟨fun h => absurd h (by decide), fun h => absurd h8 (not_le_of_lt h.2)⟩,
      ⟨fun h => absurd h (by decide), fun h => absurd h6 (not_le_of_lt h)⟩,
      Or.inl rfl⟩
  · rcases le_or_lt (6/10 : ℚ) s with h6 | h6
    · rw [if_neg (not_le_of_lt h8), if_pos h6]
      exact ⟨⟨fun h => absurd h (by decide), fun h => absurd h8 (not_lt_of_le h)⟩,
        ⟨fun _ => ⟨h6, h8⟩, fun _ => rfl⟩,
        ⟨fun h => absurd h (by decide), fun h => absurd h6 (not_le_of_lt h)⟩,
        Or.inr (Or.inl rfl)⟩
    · rw [if_neg (not_le_of_lt h8), if_neg (not_le_of_lt h6)]
      exact ⟨⟨fun h => absurd h (by decide),
          fun h => absurd (lt_of_le_of_lt h h6) (by norm_num)⟩,
        ⟨fun h => absurd h (by decide),
          fun h => absurd (lt_of_le_of_lt h.1 h6) (lt_irrefl _)⟩,
        ⟨fun _ => h6, fun _ => rfl⟩,
        Or.inr (Or.inr rfl)⟩

/-- C1: `summarize_overall` is the clamped 0.6/0.4 weighted combination of the
two arithmetic means when both lists are non-empty, and the clamped mean of
the sole non-empty list otherwise. -/
theorem C1_summarize_overall_weighted_mean (ts iss : List ℚ) :
    (ts ≠ [] → iss ≠ [] →
      summarize_overall ts iss
        = clamp_score (6/10 * listMean ts + 4/10 * listMean iss))
    ∧ (ts ≠ [] → iss = [] → summarize_overall ts iss = clamp_score (listMean ts))
    ∧ (ts = [] → iss ≠ [] → summarize_overall ts iss = clamp_score (listMean iss)) := by
  refine ⟨?_, ?_, ?_⟩
  · intro ht hi
    unfold summarize_overall
    rw [if_pos]
    simp [List.isEmpty_iff, ht, hi]
  · intro ht hi
    subst hi
    unfold summarize_overall
    simp [List.isEmpty_iff, ht]
  · intro ht hi
    subst ht
    unfold summarize_overall
    simp [List.isEmpty_iff, hi]

/-- C1 witness: the weighted-mean equation evaluated on concrete score lists. -/
theorem C1_witness :
    summarize_overall [1/2] [1/4]
      = clamp_score (6/10 * listMean [1/2] + 4/10 * listMean [1/4])
    ∧ summarize_overall [1/2] [] = clamp_score (listMean [1/2]) :=
  ⟨(C1_summarize_overall_weighted_mean [1/2] [1/4]).1 (by simp) (by simp),
    (C1_summarize_overall_weighted_mean [1/2] []).2.1 (by simp) rfl⟩

/-- Python `str.strip()`: drop leading and trailing whitespace characters. -/
def trimChars (l : List Char) : List Char :=
  ((l.dropWhile Char.isWhitespace).reverse.dropWhile Char.isWhitespace).reverse

/-- `_normalize_label` from model_loader.py lines 27-28:
`label.strip().lower().replace("_", " ")`, character-wise (replacing the
single-character pattern "_" is a character map). -/
def normalizeLabel (label : String) : String :=
  String.mk (((trimChars label.toList).map Char.toLower).map
    (fun c => if c = '_' then ' ' else c))

/-- Python's substring test `needle in hay` on character lists. -/
def occursIn (needle : List Char) : List Char → Bool
  | [] => needle.isEmpty
  | h :: t => needle.isPrefixOf (h :: t) || occursIn needle t

/-- Python's `term in label` substring containment on strings. -/
def containsSub (hay needle : String) : Bool :=
  occursIn needle.toList hay.toList

/-- The "clearly real" terms of model_loader.py line 45. -/
def realTerms : List String :=
  ["real", "human", "natural", "authentic", "organic"]

/-- The inner loop of model_loader.py lines 43-48: scan the normalized
(index, label) pairs in order; at the first label containing a real-style
term, return the first other key (`other_indices[0]`) when one exists. -/
def findRealOtherIdx (keys : List Nat) (terms : List String) :
    List (Nat × String) → Option Nat
  | [] => none
  | p :: rest =>
    if terms.any (fun t => containsSub p.2 t) then
      match (keys.filter (fun i => i != p.1)).head? with
      | some j => some j
      | none => findRealOtherIdx keys terms rest
    else findRealOtherIdx keys terms rest

/-- `_find_ai_label_index` from model_loader.py lines 31-50.  `id2label` is
modelled as the insertion-ordered (int key, label) pairs of the Python dict;
keys are distinct in a dict. -/
def findAiLabelIndex (id2label : List (Nat × String)) (positiveTerms : List String)
    (fallbackIndex : Nat) : Nat :=
  if id2label.isEmpty then fallbackIndex
  else
    let normalized := id2label.map (fun p => (p.1, normalizeLabel p.2))
    match normalized.find? (fun p => positiveTerms.any (fun t => containsSub p.2 t)) with
    | some p => p.1
    | none =>
      if normalized.length = 2 then
        match findRealOtherIdx (normalized.map Prod.fst) realTerms normalized with
        | some j => j
        | none => fallbackIndex
      else fallbackIndex

/-- The positive terms used for the text detector (model_loader.py line 68). -/
def textPositiveTerms : List String :=
  ["ai", "fake", "generated", "synthetic", "machine"]

lemma findRealOtherIdx_eq_none (keys : List Nat) (terms : List String)
    (l : List (Nat × String))
    (h : ∀ p ∈ l, (terms.any (fun t => containsSub p.2 t)) = false) :
    findRealOtherIdx keys terms l = none := by
  induction l with
  | nil => rfl
  | cons p rest ih =>
    unfold findRealOtherIdx
    rw [if_neg]
    · exact ih (fun q hq => h q (List.mem_cons_of_mem p hq))
    · simp [h p (List.mem_cons_self p rest)]

/-- C4 counterexample: for `id2label = {0: "cat", 1: "real"}` no label
contains a positive term, yet resolution returns index 0, not the claimed
default index 1 (the binary-classifier "real"-label branch fires). -/
theorem C4_counterexample_thm :
    (∀ p ∈ [((0 : Nat), "cat"), (1, "real")], ∀ t ∈ textPositiveTerms,
      containsSub (normalizeLabel p.2) t = false)
    ∧ findAiLabelIndex [(0, "cat"), (1, "real")] textPositiveTerms 1 = 0 := by
  constructor
  · decide
  · rfl

/-- C4 (amended): the AI-class index resolution: the first normalized label
containing a positive term determines the index; when no label contains a
positive term, resolution defaults to index 1 unless the mapping is binary
and some label contains a real-style term (real/human/natural/authentic/
organic), in which case the other label's index is returned. -/
theorem C4_amended_resolution (id2label : List (Nat × String))
    (positiveTerms : List String) :
    (∀ q, (id2label.map (fun p => (p.1, normalizeLabel p.2))).find?
        (fun p => positiveTerms.any (fun t => containsSub p.2 t)) = some q →
      findAiLabelIndex id2label positiveTerms 1 = q.1
      ∧ (positiveTerms.any (fun t => containsSub q.2 t)) = true)
    ∧ ((∀ p ∈ id2label, ∀ t ∈ positiveTerms,
          containsSub (normalizeLabel p.2) t = false) →
        (id2label.length ≠ 2
          ∨ ∀ p ∈ id2label, ∀ t ∈ realTerms,
              containsSub (normalizeLabel p.2) t = false) →
        findAiLabelIndex id2label positiveTerms 1 = 1)
    ∧ (∀ i a j b, i ≠ j →
        (∀ t ∈ positiveTerms, containsSub (normalizeLabel a) t = false) →
        (∀ t ∈ positiveTerms, containsSub (normalizeLabel b) t = false) →
        ((realTerms.any (fun t => containsSub (normalizeLabel a) t)) = true →
            findAiLabelIndex [(i, a), (j, b)] positiveTerms 1 = j)
        ∧ ((realTerms.any (fun t => containsSub (normalizeLabel a) t)) = false →
            (realTerms.any (fun t => containsSub (normalizeLabel b) t)) = true →
            findAiLabelIndex [(i, a), (j, b)] positiveTerms 1 = i)) := by
  refine ⟨?_, ?_, ?_⟩
  · intro q hq
    have hpq := List.find?_some hq
    refine ⟨?_, hpq⟩
    unfold findAiLabelIndex
    by_cases hemp : id2label.isEmpty
    · rw [List.isEmpty_iff] at hemp
      subst hemp
      simp at hq
    · rw [if_neg hemp]
      simp only [hq]
  · intro hpos hneg
    unfold findAiLabelIndex
    by_cases hemp : id2label.isEmpty
    · rw [if_pos hemp]
    · rw [if_neg hemp]
      have hfind :
          (id2label.map (fun p => (p.1, normalizeLabel p.2))).find?
            (fun p => positiveTerms.any (fun t => containsSub p.2 t)) = none := by
        rw [List.find?_eq_none]
        intro q hq
        rcases List.mem_map.mp hq with ⟨p, hp, hpq⟩
        subst hpq
        simp only [Bool.not_eq_true, List.any_eq_false]
        exact fun t ht => by simp [hpos p hp t ht]
      simp only [hfind]
      rcases hneg with hlen | hreal
      · rw [if_neg (by simpa using hlen)]
      · by_cases h2 : (id2label.map (fun p => (p.1, normalizeLabel p.2))).length = 2
        · have hnone :
              findRealOtherIdx
                ((id2label.map (fun p => (p.1, normalizeLabel p.2))).map Prod.fst)
                realTerms (id2label.map (fun p => (p.1, normalizeLabel p.2))) = none := by
            apply findRealOtherIdx_eq_none
            intro q hq
            rcases List.mem_map.mp hq with ⟨p, hp, hpq⟩
            subst hpq
            rw [List.any_eq_false]
            intro t ht
            simp [hreal p hp t ht]
          rw [if_pos h2, hnone]
        · rw [if_neg h2]
  · intro i a j b hij hpa hpb
    have hfind : ([(i, a), (j, b)].map (fun p => (p.1, normalizeLabel p.2))).find?
        (fun p => positiveTerms.any (fun t => containsSub p.2 t)) = none := by
      rw [List.find?_eq_none]
      intro x hx
      rcases List.mem_map.mp hx with ⟨p, hp, hpx⟩
      subst hpx
      rcases List.mem_cons.mp hp with hp1 | hp1
      · subst hp1
        simp only [Bool.not_eq_true, List.any_eq_false]
        exact fun t ht => by simp [hpa t ht]
      · have hp2 : p = (j, b) := by simpa using hp1
        subst hp2
        simp only [Bool.not_eq_true, List.any_eq_false]
        exact fun t ht => by simp [hpb t ht]
    have hji : (j != i) = true := bne_iff_ne.mpr (Ne.symm hij)
    have hijb : (i != j) = true := bne_iff_ne.mpr hij
    constructor
    · intro hra
      unfold findAiLabelIndex
      rw [if_neg (by simp)]
      simp only [hfind]
      rw [if_pos (by simp)]
      simp [findRealOtherIdx, hra, List.filter_cons, hji, hijb]
    · intro hra hrb
      unfold findAiLabelIndex
      rw [if_neg (by simp)]
      simp only [hfind]
      rw [if_pos (by simp)]
      simp [findRealOtherIdx, hra, hrb, List.filter_cons, hji, hijb]

/-- C4 witness: concrete resolutions exercising all three clauses: a
positive-term label wins; a binary mapping with neither positive nor
real-style labels defaults to 1; a binary mapping with a real-style label
resolves to the other index. -/
theorem C4_witness :
    findAiLabelIndex [((0 : Nat), "human"), (1, "AI")] textPositiveTerms 1 = 1
    ∧ findAiLabelIndex [((0 : Nat), "cat"), (1, "dog")] textPositiveTerms 1 = 1
    ∧ findAiLabelIndex [((0 : Nat), "cat"), (1, "real")] textPositiveTerms 1 = 0 :=
  ⟨((C4_amended_resolution [((0 : Nat), "human"), (1, "AI")] textPositiveTerms).1
      ((1 : Nat), "ai") (by decide)).1,
    (C4_amended_resolution [((0 : Nat), "cat"), (1, "dog")] textPositiveTerms).2.1
      (by decide) (Or.inr (by decide)),
    ((C4_amended_resolution [((0 : Nat), "cat"), (1, "real")] textPositiveTerms).2.2
      0 "cat" 1 "real" (by decide) (by decide) (by decide)).2 (by decide) (by decide)⟩

/-- Outcome of one remote chat-completion call of explanation_client.py:
either a returned sentence or a raised exception. -/
inductive ExResult where
  | ok (s : String)
  | exc
deriving DecidableEq

/-- `FeatherlessExplainer` (explanation_client.py), abstracted to the
observable outcome of each remote call. -/
structure Explainer where
  explainTextChunk : String → ℚ → String → ExResult
  explainImage : String → ℚ → String → ExResult

/-- `explanation_fallback` from app.py lines 135-148. -/
def explanation_fallback (kind tier : String) : Option String :=
  if tier = "low" then none
  else if kind = "text" then
    some (if tier = "medium" then "Moderate AI-like writing signal detected."
      else "Strong AI-like writing signal detected due to highly uniform or templated phrasing.")
  else
    some (if tier = "medium" then "Moderate synthetic-image signal detected."
      else "Strong synthetic-image signal detected based on the classifier's visual pattern match.")

/-- `maybe_explain_text` from app.py lines 151-159.  The second component of
the result records whether a remote explainer call was issued. -/
def maybe_explain_text (explainer : Option Explainer) (text : String) (score : ℚ)
    (tier : String) : Option String × Bool :=
  if tier = "low" then (none, false)
  else
    match explainer with
    | none => (explanation_fallback "text" tier, false)
    | some ex =>
      match ex.explainTextChunk text score tier with
      | ExResult.ok s => (some s, true)
      | ExResult.exc => (explanation_fallback "text" tier, true)

/-- `maybe_explain_image` from app.py lines 162-170, instrumented like
`maybe_explain_text`. -/
def maybe_explain_image (explainer : Option Explainer) (imageData : String) (score : ℚ)
    (tier : String) : Option String × Bool :=
  if tier = "low" then (none, false)
  else
    match explainer with
    | none => (explanation_fallback "image" tier, false)
    | some ex =>
      match ex.explainImage imageData score tier with
      | ExResult.ok s => (some s, true)
      | ExResult.exc => (explanation_fallback "image" tier, true)

/-- C5: for tiers medium and high, when no explainer is configured or the
remote call raises, the produced explanation is the canned fallback
sentence, which depends only on the (content-kind, tier) pair and is a
present (non-None) sentence. -/
theorem C5_fallback_on_failure (tier text img : String) (score : ℚ)
    (htier : tier = "medium" ∨ tier = "high") :
    (maybe_explain_text none text score tier).1 = explanation_fallback "text" tier
    ∧ (maybe_explain_image none img score tier).1 = explanation_fallback "image" tier
    ∧ (∀ ex : Explainer, ex.explainTextChunk text score tier = ExResult.exc →
        (maybe_explain_text (some ex) text score tier).1 = explanation_fallback "text" tier)
    ∧ (∀ ex : Explainer, ex.explainImage img score tier = ExResult.exc →
        (maybe_explain_image (some ex) img score tier).1 = explanation_fallback "image" tier)
    ∧ (explanation_fallback "text" tier).isSome = true
    ∧ (explanation_fallback "image" tier).isSome = true := by
  have hlow : tier ≠ "low" := by
    rcases htier with h | h <;> subst h <;> decide
  refine ⟨?_, ?_, ?_, ?_, ?_, ?_⟩
  · simp [maybe_explain_text, hlow]
  · simp [maybe_explain_image, hlow]
  · intro ex hex
    simp [maybe_explain_text, hlow, hex]
  · intro ex hex
    simp [maybe_explain_image, hlow, hex]
  · rcases htier with h | h <;> subst h <;> decide
  · rcases htier with h | h <;> subst h <;> decide

/-- C5 witness: at tier "medium" the fallback sentence is returned both with
no explainer configured and with an explainer whose remote call raises. -/
theorem C5_witness :
    (maybe_explain_text none "abc" (7/10) "medium").1
      = explanation_fallback "text" "medium"
    ∧ (maybe_explain_image
        (some ⟨fun _ _ _ => ExResult.exc, fun _ _ _ => ExResult.exc⟩)
        "img" (7/10) "medium").1 = explanation_fallback "image" "medium" := by
  have h := C5_fallback_on_failure "medium" "abc" "img" (7/10) (Or.inl rfl)
  exact ⟨h.1, h.2.2.2.1 ⟨fun _ _ _ => ExResult.exc, fun _ _ _ => ExResult.exc⟩ rfl⟩

/-- C7: when the tier derived from a score is "low", no remote explanation
call is issued and the explanation is None; an explanation is produced only
when the derived tier is "medium" or "high". -/
theorem C7_low_tier_no_explanation (ex : Option Explainer) (text img : String)
    (score : ℚ) :
    (tier_from_score score = "low" →
      maybe_explain_text ex text score (tier_from_score score) = (none, false)
      ∧ maybe_explain_image ex img score (tier_from_score score) = (none, false))
    ∧ ((maybe_explain_text ex text score (tier_from_score score)).1.isSome = true →
        tier_from_score score = "medium" ∨ tier_from_score score = "high")
    ∧ ((maybe_explain_image ex img score (tier_from_score score)).1.isSome = true →
        tier_from_score score = "medium" ∨ tier_from_score score = "high") := by
  have htri : tier_from_score score = "high" ∨ tier_from_score score = "medium"
      ∨ tier_from_score score = "low" := by
    unfold tier_from_score
    split
    · exact Or.inl rfl
    · split
      · exact Or.inr (Or.inl rfl)
      · exact Or.inr (Or.inr rfl)
  rcases htri with h | h | h <;> rw [h]
  · exact ⟨fun hx => absurd hx (by decide),
      fun _ => Or.inr rfl, fun _ => Or.inr rfl⟩
  · exact ⟨fun hx => absurd hx (by decide),
      fun _ => Or.inl rfl, fun _ => Or.inl rfl⟩
  · refine ⟨fun _ => ⟨?_, ?_⟩, ?_, ?_⟩
    · simp [maybe_explain_text]
    · simp [maybe_explain_image]
    · intro hx
      simp [maybe_explain_text] at hx
    · intro hx
      simp [maybe_explain_image] at hx

/-- C7 witness: at score 0 the derived tier is "low" and no explanation or
remote call is produced. -/
theorem C7_witness :
    maybe_explain_text none "abc" 0 (tier_from_score 0) = (none, false) :=
  ((C7_low_tier_no_explanation none "abc" "img" 0).1 (by norm_num [tier_from_score])).1

/-- A Python runtime exception raised inside a handler (FastAPI turns an
unhandled one into a 500 response). -/
inductive PyEx where
  | typeError (msg : String)
  | keyError (msg : String)
deriving DecidableEq

/-- A Python value as far as the handlers inspect one: the float returned by
`TextDetector.predict`, or a dict of floats. -/
inductive PyVal where
  | pyFloat (q : ℚ)
  | pyDict (entries : List (String × ℚ))
deriving DecidableEq

/-- Python subscripting `v[key]`: raises `TypeError` on a float. -/
def pySubscript : PyVal → String → Except PyEx ℚ
  | PyVal.pyFloat _, _ => Except.error (PyEx.typeError "float object is not subscriptable")
  | PyVal.pyDict es, k =>
    match es.lookup k with
    | some v => Except.ok v
    | none => Except.error (PyEx.keyError k)

/-- `TextDetector` (model_loader.py lines 53-90): the transformer pipeline is
an external library, abstracted as the oracle `rawProb` giving the softmax
probability at the AI label index for each input text. -/
structure TextDetector where
  rawProb : String → ℚ

/-- `TextDetector.predict` (model_loader.py lines 73-75) returns a float. -/
def TextDetector.predict (d : TextDetector) (text : String) : ℚ :=
  d.rawProb text

/-- `ImageDetector` (model_loader.py lines 93-133), likewise abstracted;
`rawProb` stands for decoding plus classification of the data-URI payload. -/
structure ImageDetector where
  rawProb : String → ℚ

/-- `ImageDetector.predict` (model_loader.py lines 125-133). -/
def ImageDetector.predict (d : ImageDetector) (imageData : String) : ℚ :=
  d.rawProb imageData

/-- `text_detector.predict(text)["ai_prob"]` as written at app.py lines
233/285/366: the predict result is a float, so the subscript raises. -/
def predictAiProb (d : TextDetector) (text : String) : Except PyEx ℚ :=
  pySubscript (PyVal.pyFloat (d.predict text)) "ai_prob"

/-- `getattr(image_detector, "enabled", False)`: `ImageDetector` defines no
`enabled` attribute, so the getattr default False is always taken. -/
def getattrEnabled : Bool := false

/-- `TextChunk` request model (app.py lines 66-71). -/
structure TextChunk where
  id : String
  text : String
  kind : String
  startChar : Option Int
  endChar : Option Int
deriving DecidableEq

/-- `ImageItem` request model (app.py lines 78-80). -/
structure ImageItem where
  id : String
  image : String
deriving DecidableEq

/-- One entry of `details["results"]` for a text chunk (app.py lines 290-301). -/
structure SpanResult where
  id : String
  kind : String
  text : String
  startChar : Option Int
  endChar : Option Int
  score : ℚ
  tier : String
  explanation : Option String
deriving DecidableEq

/-- One entry of `details["results"]` for an image (app.py lines 331-338). -/
structure ImgResult where
  id : String
  score : ℚ
  tier : String
  explanation : Option String
deriving DecidableEq

/-- The `details` dict of a `DetectionResponse`, one shape per endpoint. -/
inductive Details where
  | dtext (tier : String) (textLength : Nat) (explanation : Option String)
  | dimage (tier : String) (explanation : Option String) (imageDetectorEnabled : Bool)
  | dspans (results : List SpanResult) (flaggedCount : Nat)
  | dbatch (results : List ImgResult) (flaggedCount : Nat) (imageDetectorEnabled : Bool)
  | dpage (textScore : ℚ) (textResults : List SpanResult) (imageScore : ℚ)
      (imageResults : List ImgResult) (imageDetectorEnabled : Bool) (overallTier : String)
deriving DecidableEq

/-- `DetectionResponse` (app.py lines 92-96); `latency_ms` is wall-clock
time and is not modelled. -/
structure DetectionResponse where
  score : ℚ
  provider : String
  details : Details
deriving DecidableEq

/-- The HTTP outcome of a handler: a 200 response, a raised `HTTPException`,
or an unhandled Python exception (a 500). -/
inductive HResp where
  | ok (r : DetectionResponse)
  | httpError (status : Nat) (detail : String)
  | serverError (e : PyEx)
deriving DecidableEq

/-- The chunk-scoring comprehension
`[clamp_score(text_detector.predict(c.text)["ai_prob"]) for c in chunks]`:
left to right, stopping at the first raised exception; the second component
lists the texts on which `predict` was called. -/
def scoreChunks (d : TextDetector) : List TextChunk → Except PyEx (List ℚ) × List String
  | [] => (Except.ok [], [])
  | c :: rest =>
    match predictAiProb d c.text with
    | Except.error e => (Except.error e, [c.text])
    | Except.ok p =>
      match scoreChunks d rest with
      | (Except.error e, calls) => (Except.error e, c.text :: calls)
      | (Except.ok ps, calls) => (Except.ok (clamp_score p :: ps), c.text :: calls)

/-- The per-chunk result assembly of app.py lines 288-301 and 369-382:
zip chunks with their scores and attach tier and explanation. -/
def spanResults (explainer : Option Explainer) :
    List TextChunk → List ℚ → List SpanResult
  | c :: cs, s :: ss =>
    let tier := tier_from_score s
    { id := c.id, kind := c.kind, text := c.text, startChar := c.startChar,
      endChar := c.endChar, score := s, tier := tier,
      explanation := (maybe_explain_text explainer c.text s tier).1 }
      :: spanResults explainer cs ss
  | _, _ => []

/-- The image loop of app.py lines 327-338 and 385-396: for each item, a
clamped score and a result entry. -/
def imageLoop (d : ImageDetector) (explainer : Option Explainer) :
    List ImageItem → List ℚ × List ImgResult
  | [] => ([], [])
  | it :: rest =>
    let score := clamp_score (d.predict it.image)
    let tier := tier_from_score score
    let r : ImgResult :=
      { id := it.id, score := score, tier := tier,
        explanation := (maybe_explain_image explainer it.image score tier).1 }
    let (ss, rs) := imageLoop d explainer rest
    (score :: ss, r :: rs)

/-- `flagged_count` (app.py lines 310 and 347): results whose tier is
"medium" or "high". -/
def flaggedCountSpans (results : List SpanResult) : Nat :=
  (results.filter (fun r => r.tier == "medium" || r.tier == "high")).length

/-- `flagged_count` for image results. -/
def flaggedCountImgs (results : List ImgResult) : Nat :=
  (results.filter (fun r => r.tier == "medium" || r.tier == "high")).length

/-- `/infer/text` handler (app.py lines 227-247).  The second component is
the list of texts on which `predict` was issued. -/
def infer_text (td : Option TextDetector) (explainer : Option Explainer)
    (text : String) : HResp × List String :=
  match td with
  | none => (HResp.httpError 503 "Text detector not loaded", [])
  | some d =>
    match predictAiProb d text with
    | Except.error e => (HResp.serverError e, [text])
    | Except.ok p =>
      let score := clamp_score p
      let tier := tier_from_score score
      (HResp.ok (DetectionResponse.mk score "python-model"
        (Details.dtext tier text.length (maybe_explain_text explainer text score tier).1)),
       [text])

/-- `/infer/image` handler (app.py lines 250-270). -/
def infer_image (idet : Option ImageDetector) (explainer : Option Explainer)
    (image : String) : HResp × List String :=
  match idet with
  | none => (HResp.httpError 503 "Image detector not loaded", [])
  | some d =>
    let score := clamp_score (d.predict image)
    let tier := tier_from_score score
    (HResp.ok (DetectionResponse.mk score "python-model"
      (Details.dimage tier (maybe_explain_image explainer image score tier).1 getattrEnabled)),
     [image])

/-- `/infer/text/spans` handler (app.py lines 277-313). -/
def infer_text_spans (td : Option TextDetector) (explainer : Option Explainer)
    (chunks : List TextChunk) : HResp × List String :=
  match td with
  | none => (HResp.httpError 503 "Text detector not loaded", [])
  | some d =>
    if chunks.isEmpty then (HResp.httpError 400 "No text chunks provided", [])
    else
      match scoreChunks d chunks with
      | (Except.error e, calls) => (HResp.serverError e, calls)
      | (Except.ok scores, calls) =>
        let results := spanResults explainer chunks scores
        (HResp.ok (DetectionResponse.mk (summarize_overall scores []) "python-model"
          (Details.dspans results (flaggedCountSpans results))),
         calls)

/-- `/infer/image/batch` handler (app.py lines 316-351). -/
def infer_image_batch (idet : Option ImageDetector) (explainer : Option Explainer)
    (images : List ImageItem) : HResp × List String :=
  match idet with
  | none => (HResp.httpError 503 "Image detector not loaded", [])
  | some d =>
    if images.isEmpty then (HResp.httpError 400 "No images provided", [])
    else
      let pair := imageLoop d explainer images
      (HResp.ok (DetectionResponse.mk (summarize_overall [] pair.1) "python-model"
        (Details.dbatch pair.2 (flaggedCountImgs pair.2) getattrEnabled)),
       images.map (fun it => it.image))

/-- `/infer/page` handler (app.py lines 354-417).  The call logs are the
texts and the images on which a detector `predict` was issued, in order. -/
def infer_page (td : Option TextDetector) (idet : Option ImageDetector)
    (explainer : Option Explainer) (chunks : List TextChunk)
    (images : List ImageItem) : HResp × List String × List String :=
  match td, idet with
  | some d, some im =>
    let textPass : Except PyEx (List ℚ × List SpanResult) × List String :=
      if chunks.isEmpty then (Except.ok ([], []), [])
      else
        match scoreChunks d chunks with
        | (Except.error e, calls) => (Except.error e, calls)
        | (Except.ok ss, calls) => (Except.ok (ss, spanResults explainer chunks ss), calls)
    match textPass with
    | (Except.error e, calls) => (HResp.serverError e, calls, [])
    | (Except.ok (textScores, textResults), calls) =>
      let ipair : List ℚ × List ImgResult :=
        if images.isEmpty then ([], []) else imageLoop im explainer images
      let overall := summarize_overall textScores ipair.1
      (HResp.ok (DetectionResponse.mk overall "python-model"
        (Details.dpage (summarize_overall textScores []) textResults
          (summarize_overall [] ipair.1) ipair.2 getattrEnabled
          (tier_from_score overall))),
       calls, images.map (fun it => it.image))
  | _, _ => (HResp.httpError 503 "Model service not fully initialized", [], [])

/-- C3 (code evaluation at the failing input): for every detector and
explainer configuration, the valid request text "hello world" (length ≥ 3)
makes the /infer/text handler raise a TypeError — `TextDetector.predict`
returns a float and the handler subscripts it with "ai_prob" — so no
response carrying a clamped score is produced. -/
theorem C3_infer_text_type_error (d : TextDetector) (explainer : Option Explainer) :
    "hello world".length ≥ 3
    ∧ infer_text (some d) explainer "hello world"
      = (HResp.serverError (PyEx.typeError "float object is not subscriptable"),
        ["hello world"]) := by
  exact ⟨by decide, rfl⟩

/-- C10: a spans request with an empty chunks list and a batch request with
an empty images list each fail with HTTP 400 and an empty detector-call log,
so no prediction is made and no partial results are produced. -/
theorem C10_empty_lists_rejected_400 (d : TextDetector) (im : ImageDetector)
    (explainer : Option Explainer) :
    infer_text_spans (some d) explainer []
      = (HResp.httpError 400 "No text chunks provided", [])
    ∧ infer_image_batch (some im) explainer []
      = (HResp.httpError 400 "No images provided", []) :=
  ⟨rfl, rfl⟩

/-- C9: `summarize_overall` of two empty lists is 0, and a page request with
no chunks and no images returns score 0 with overall tier "low" and empty
detector-call logs. -/
theorem C9_empty_page_returns_zero (d : TextDetector) (im : ImageDetector)
    (explainer : Option Explainer) :
    summarize_overall [] [] = 0
    ∧ infer_page (some d) (some im) explainer [] []
      = (HResp.ok (DetectionResponse.mk 0 "python-model"
          (Details.dpage 0 [] 0 [] getattrEnabled "low")), [], []) := by
  have hlow : tier_from_score 0 = "low" := by norm_num [tier_from_score]
  have h0 : summarize_overall [] [] = 0 := rfl
  refine ⟨rfl, ?_⟩
  simp [infer_page, h0, hlow]

/-- C8: `summarize_overall` always lands in [0,1], and whenever any of the
five inference endpoints returns a 200 response, its top-level score lies in
[0,1] (each per-item score is clamped and the aggregate is clamped). -/
theorem C8_response_scores_in_unit_interval :
    (∀ ts iss : List ℚ, 0 ≤ summarize_overall ts iss ∧ summarize_overall ts iss ≤ 1)
    ∧ (∀ td explainer text r calls,
        infer_text td explainer text = (HResp.ok r, calls) → 0 ≤ r.score ∧ r.score ≤ 1)
    ∧ (∀ idet explainer image r calls,
        infer_image idet explainer image = (HResp.ok r, calls) → 0 ≤ r.score ∧ r.score ≤ 1)
    ∧ (∀ td explainer chunks r calls,
        infer_text_spans td explainer chunks = (HResp.ok r, calls) →
          0 ≤ r.score ∧ r.score ≤ 1)
    ∧ (∀ idet explainer images r calls,
        infer_image_batch idet explainer images = (HResp.ok r, calls) →
          0 ≤ r.score ∧ r.score ≤ 1)
    ∧ (∀ td idet explainer chunks images r tcalls icalls,
        infer_page td idet explainer chunks images = (HResp.ok r, tcalls, icalls) →
          0 ≤ r.score ∧ r.score ≤ 1) := by
  refine ⟨fun ts iss => ⟨summarize_overall_nonneg ts iss, summarize_overall_le_one ts iss⟩,
    ?_, ?_, ?_, ?_, ?_⟩
  · intro td explainer text r calls h
    match td with
    | none =>
      have h' : (HResp.httpError 503 "Text detector not loaded", ([] : List String))
          = (HResp.ok r, calls) := h
      simp at h'
    | some d =>
      have h' : (HResp.serverError (PyEx.typeError "float object is not subscriptable"),
          [text]) = (HResp.ok r, calls) := h
      simp at h'
  · intro idet explainer image r calls h
    match idet with
    | none =>
      have h' : (HResp.httpError 503 "Image detector not loaded", ([] : List String))
          = (HResp.ok r, calls) := h
      simp at h'
    | some d =>
      have h' : (HResp.ok (DetectionResponse.mk (clamp_score (d.predict image))
          "python-model" (Details.dimage (tier_from_score (clamp_score (d.predict image)))
            (maybe_explain_image explainer image (clamp_score (d.predict image))
              (tier_from_score (clamp_score (d.predict image)))).1 getattrEnabled)),
          [image]) = (HResp.ok r, calls) := h
      injection h' with h1 h2
      injection h1 with hr
      subst hr
      exact ⟨clamp_score_nonneg _, clamp_score_le_one _⟩
  · intro td explainer chunks r calls h
    match td with
    | none =>
      have h' : (HResp.httpError 503 "Text detector not loaded", ([] : List String))
          = (HResp.ok r, calls) := h
      simp at h'
    | some d =>
      match chunks with
      | [] =>
        have h' : (HResp.httpError 400 "No text chunks provided", ([] : List String))
            = (HResp.ok r, calls) := h
        simp at h'
      | c :: cs =>
        have h' : (HResp.serverError (PyEx.typeError "float object is not subscriptable"),
            [c.text]) = (HResp.ok r, calls) := h
        simp at h'
  · intro idet explainer images r calls h
    match idet with
    | none =>
      have h' : (HResp.httpError 503 "Image detector not loaded", ([] : List String))
          = (HResp.ok r, calls) := h
      simp at h'
    | some d =>
      match images with
      | [] =>
        have h' : (HResp.httpError 400 "No images provided", ([] : List String))
            = (HResp.ok r, calls) := h
        simp at h'
      | it :: rest =>
        have h' : (HResp.ok (DetectionResponse.mk
            (summarize_overall [] (imageLoop d explainer (it :: rest)).1) "python-model"
            (Details.dbatch (imageLoop d explainer (it :: rest)).2
              (flaggedCountImgs (imageLoop d explainer (it :: rest)).2) getattrEnabled)),
            (it :: rest).map (fun x => x.image)) = (HResp.ok r, calls) := h
        injection h' with h1 h2
        injection h1 with hr
        subst hr
        exact ⟨summarize_overall_nonneg _ _, summarize_overall_le_one _ _⟩
  · intro td idet explainer chunks images r tcalls icalls h
    match td, idet with
    | none, none =>
      have h' : (HResp.httpError 503 "Model service not fully initialized",
          ([] : List String), ([] : List String)) = (HResp.ok r, tcalls, icalls) := h
      simp at h'
    | none, some im =>
      have h' : (HResp.httpError 503 "Model service not fully initialized",
          ([] : List String), ([] : List String)) = (HResp.ok r, tcalls, icalls) := h
      simp at h'
    | some d, none =>
      have h' : (HResp.httpError 503 "Model service not fully initialized",
          ([] : List String), ([] : List String)) = (HResp.ok r, tcalls, icalls) := h
      simp at h'
    | some d, some im =>
      match chunks with
      | c :: cs =>
        have h' : (HResp.serverError (PyEx.typeError "float object is not subscriptable"),
            [c.text], ([] : List String)) = (HResp.ok r, tcalls, icalls) := h
        simp at h'
      | [] =>
        have h' : (HResp.ok (DetectionResponse.mk
            (summarize_overall []
              (if images.isEmpty then (([] : List ℚ), ([] : List ImgResult))
                else imageLoop im explainer images).1) "python-model"
            (Details.dpage (summarize_overall [] []) []
              (summarize_overall []
                (if images.isEmpty then (([] : List ℚ), ([] : List ImgResult))
                  else imageLoop im explainer images).1)
              (if images.isEmpty then (([] : List ℚ), ([] : List ImgResult))
                else imageLoop im explainer images).2 getattrEnabled
              (tier_from_score (summarize_overall []
                (if images.isEmpty then (([] : List ℚ), ([] : List ImgResult))
                  else imageLoop im explainer images).1)))),
            ([] : List String), images.map (fun x => x.image))
            = (HResp.ok r, tcalls, icalls) := h
        injection h' with h1 h2
        injection h1 with hr
        subst hr
        exact ⟨summarize_overall_nonneg _ _, summarize_overall_le_one _ _⟩

/-- C8 witness: a concrete /infer/image run with raw detector output 1/2
returns a 200 response, and the bounds theorem applies to its score. -/
theorem C8_witness :
    0 ≤ (DetectionResponse.mk (clamp_score ((1 : ℚ)/2)) "python-model"
      (Details.dimage (tier_from_score (clamp_score ((1 : ℚ)/2)))
        (maybe_explain_image none "img" (clamp_score ((1 : ℚ)/2))
          (tier_from_score (clamp_score ((1 : ℚ)/2)))).1 getattrEnabled)).score
    ∧ (DetectionResponse.mk (clamp_score ((1 : ℚ)/2)) "python-model"
      (Details.dimage (tier_from_score (clamp_score ((1 : ℚ)/2)))
        (maybe_explain_image none "img" (clamp_score ((1 : ℚ)/2))
          (tier_from_score (clamp_score ((1 : ℚ)/2)))).1 getattrEnabled)).score ≤ 1 :=
  C8_response_scores_in_unit_interval.2.2.1 (some ⟨fun _ => 1/2⟩) none "img" _ ["img"] rfl
